import Mathlib

/-!
Shallow embedding of the scrape-rappler repository (src/main.py and
src/article_url_scraper.py) and proofs about its behaviour.

External capabilities (the Selenium driver, the HTTP client, the XML
parser, hashing, the filesystem and Firestore) are modelled as explicit
parameters or environment records; the control flow and data handling of
the repository functions themselves are translated directly from the
source.
-/

namespace Rappler

/-! ## Shared string helpers (the Python substring membership test) -/

/-- Membership test of a character list as a contiguous sublist, used to
embed the Python expression needle in haystack on strings. -/
def containsSub (n : List Char) : List Char → Bool
  | [] => n.isEmpty
  | c :: rest => n.isPrefixOf (c :: rest) || containsSub n rest

/-- Python substring containment needle in haystack. -/
def strContains (needle hay : String) : Bool :=
  containsSub needle.toList hay.toList

/-- Python str.startswith on strings, computed on the character lists. -/
def strStartsWith (hay pre : String) : Bool :=
  pre.toList.isPrefixOf hay.toList

/-- Python str.lower, computed character by character. -/
def strToLower (s : String) : String :=
  String.mk (s.toList.map Char.toLower)

/-! ## ArticleData (src/main.py lines 24-65) -/

/-- Embeds class ArticleData. In the source, url is always a string and
url hash is always the hex digest of the url, computed in the
constructor; title, datetime, content and moods start as None and are
filled in field by field. Mood data is the parsed mood-count mapping. -/
structure ArticleData where
  url : String
  url_hash : String
  title : Option String
  datetime : Option String
  content : Option String
  moods : Option (List (String × Nat))
  deriving Repr, DecidableEq

/-- Embeds the ArticleData constructor: url hash is the digest of the
url (the hash function itself is the external hashlib capability, passed
as a parameter), all four content fields start as None. -/
def ArticleData.init (hashFn : String → String) (url : String) : ArticleData :=
  { url := url, url_hash := hashFn url,
    title := none, datetime := none, content := none, moods := none }

/-- The null-ness of each attribute in vars(self) order: url, url hash,
title, datetime, content, moods. The first two are Python strings and
are never None. -/
def ArticleData.fieldNullFlags (a : ArticleData) : List Bool :=
  [false, false, a.title.isNone, a.datetime.isNone, a.content.isNone, a.moods.isNone]

/-- Embeds ArticleData.is_complete: all(value is not None for value in
vars(self).values()). -/
def ArticleData.is_complete (a : ArticleData) : Bool :=
  a.fieldNullFlags.all (fun b => !b)

/-- The filesystem effect of ArticleData.save: the directory passed to
os.makedirs, the path of the file written, and the record serialized
into it (JSON serialization itself is external mechanics). -/
structure SaveEffect where
  directory : String
  filename : String
  contents : ArticleData
  deriving Repr, DecidableEq

/-- Embeds ArticleData.save: recomputes the url hash from the url,
chooses the complete or incomplete partition from is_complete, creates
the partition directory and writes url-hash dot json inside it. -/
def ArticleData.save (hashFn : String → String) (a : ArticleData)
    (output_dir : String) : SaveEffect :=
  let url_hash := hashFn a.url
  let directory := output_dir ++ "/" ++ (if a.is_complete then "complete" else "incomplete")
  let filename := directory ++ "/" ++ url_hash ++ ".json"
  { directory := directory, filename := filename, contents := a }

/-! ## SitemapScraper (src/main.py lines 170-207)

The browser capability is abstracted as a function pageHrefs that, for a
page URL, returns the href attributes of the anchor tags found on that
page after navigation; everything else is translated from the source. -/

/-- Embeds SitemapScraper.BASE_URL. -/
def BASE_URL : String := "https://www.rappler.com"

/-- Embeds BaseScraper.get_urls: keep, in order, the hrefs satisfying
the condition. -/
def get_urls (hrefs : List String) (cond : String → Bool) : List String :=
  hrefs.filter cond

/-- Embeds SitemapScraper._get_post_sitemaps: navigate to the main
sitemap and keep the hrefs containing the token post-sitemap. -/
def get_post_sitemaps (pageHrefs : String → List String) (main_sitemap_url : String) :
    List String :=
  get_urls (pageHrefs main_sitemap_url) (fun u => strContains "post-sitemap" u)

/-- Embeds SitemapScraper._get_article_urls: navigate to the sitemap and
keep the hrefs starting with BASE_URL. -/
def get_article_urls (pageHrefs : String → List String) (sitemap : String) :
    List String :=
  get_urls (pageHrefs sitemap) (fun u => strStartsWith u BASE_URL)

/-- The aggregation loop of SitemapScraper.scrape_sitemap: for each post
sitemap in order, extend the accumulator with the article URLs of that
sitemap; when max_url is set and the accumulated length has reached it,
truncate to max_url and break. Also returns how many sitemaps were
fetched by the loop. -/
def scrape_sitemap_go (fetch : String → List String) (max_url : Option Nat) :
    List String → List String → List String × Nat
  | [], acc => (acc, 0)
  | s :: rest, acc =>
    let acc2 := acc ++ fetch s
    match max_url with
    | some m =>
      if m ≤ acc2.length then (acc2.take m, 1)
      else
        let r := scrape_sitemap_go fetch (some m) rest acc2
        (r.1, r.2 + 1)
    | none =>
      let r := scrape_sitemap_go fetch none rest acc2
      (r.1, r.2 + 1)

/-- Embeds SitemapScraper.scrape_sitemap: fetch the post sitemaps from
the main sitemap, then run the aggregation loop starting from the empty
list. -/
def scrape_sitemap (pageHrefs : String → List String) (main_sitemap_url : String)
    (max_url : Option Nat) : List String :=
  (scrape_sitemap_go (get_article_urls pageHrefs) max_url
    (get_post_sitemaps pageHrefs main_sitemap_url) []).1

/-- Number of child sitemaps fetched by the scrape_sitemap loop (the
number of calls to _get_article_urls). -/
def scrape_sitemap_fetches (pageHrefs : String → List String) (main_sitemap_url : String)
    (max_url : Option Nat) : Nat :=
  (scrape_sitemap_go (get_article_urls pageHrefs) max_url
    (get_post_sitemaps pageHrefs main_sitemap_url) []).2

/-! ## RapplerScraper (src/main.py lines 210-385)

One article extraction is modelled as a pure function of an environment
record describing what the external capabilities (driver waits, clicks,
intercepted network requests, filesystem, Firestore) would answer during
this run. -/

/-- Embeds RapplerScraper.VOTE_API_ENDPOINT. -/
def VOTE_API_ENDPOINT : String := "/api/v1/votes"

/-- One entry of driver.requests: the request URL and, when a response
was captured, the parsed mood-count payload of its body (the JSON
mechanics of raw_data, data, mood_count are external). -/
structure NetRequest where
  url : String
  response : Option (List (String × Nat))
  deriving Repr, DecidableEq

/-- The loop guard in _fetch_mood_data_from_requests: the request has a
response and the vote API endpoint occurs in its URL. -/
def hasVoteResponse (r : NetRequest) : Bool :=
  r.response.isSome && strContains VOTE_API_ENDPOINT r.url

/-- Embeds RapplerScraper._fetch_mood_data_from_requests: scan
driver.requests in order, and for the first request with a response
whose URL contains the vote API endpoint, return its mood-count mapping
with keys lowercased; otherwise return None. -/
def fetch_mood_data_from_requests (requests : List NetRequest) :
    Option (List (String × Nat)) :=
  match requests.find? hasVoteResponse with
  | none => none
  | some r => some ((r.response.getD []).map (fun kv => (strToLower kv.1, kv.2)))

/-- Python truthiness of the optional mood mapping: falsy when None or
when the mapping is empty (the if not mood_data test). -/
def moodFalsy : Option (List (String × Nat)) → Bool
  | none => true
  | some m => m.isEmpty

/-- The exception classes distinguished by scrape_and_save. -/
inductive ScraperExc where
  | timeoutExc
  | webdriverExc
  | otherExc
  deriving Repr, DecidableEq

/-- Environment of one extraction run: answers of the external
capabilities. A fetch field of None means the corresponding
wait_for_element call exceeds its wait-timeout. The two request lists
are the contents of driver.requests at the moment
_fetch_mood_data_from_requests is called on the direct path and on the
emulate-vote path respectively. -/
structure ScrapeEnv where
  firestoreHas : Bool
  localHasComplete : Bool
  localHasIncomplete : Bool
  navOk : Bool
  titleRes : Option String
  datetimeRes : Option String
  contentRes : Option String
  seeMoodsAppears : Bool
  voteClickOk : Bool
  requestsAtDirect : List NetRequest
  requestsAfterVote : List NetRequest
  deriving Repr

/-- Embeds RapplerScraper._is_article_in_local: the url-hash file exists
in the complete or the incomplete partition. -/
def is_article_in_local (env : ScrapeEnv) : Bool :=
  env.localHasComplete || env.localHasIncomplete

/-- Embeds RapplerScraper._is_article_in_firestore: a document with this
url hash exists in the collection. -/
def is_article_in_firestore (env : ScrapeEnv) : Bool :=
  env.firestoreHas

/-- Embeds RapplerScraper._emulate_voting: click the vote control, then
the happy reaction; a timeout of either click is caught, logged and
re-raised as TimeoutException. Returns the raised exception (if any)
and the log lines emitted. -/
def emulate_voting (env : ScrapeEnv) : Option ScraperExc × List String :=
  if env.voteClickOk then (none, ["Emulating a vote..."])
  else (some .timeoutExc, ["Emulating a vote...", "Failed to emulate a vote."])

/-- Outcome of one _fetch_moods call: the updated record, the exception
escaping the call (if any), whether _emulate_voting was invoked, and the
log lines emitted. -/
structure MoodResult where
  art : ArticleData
  exc : Option ScraperExc
  emulated : Bool
  logs : List String
  deriving Repr

/-- Embeds RapplerScraper._fetch_moods: wait (bounded by
SEE_MOODS_TIMEOUT_SECONDS) for the see-existing-reactions element; on
success read the mood data from the intercepted requests; on timeout
emulate a vote (whose own timeout propagates) and then read the mood
data. If the resulting mood data is falsy, log the mood-data-not-found
error. The moods field is assigned the read result as is. -/
def fetch_moods (env : ScrapeEnv) (a : ArticleData) : MoodResult :=
  if env.seeMoodsAppears then
    let md := fetch_mood_data_from_requests env.requestsAtDirect
    let logs := ["Checking existing mood data...", "Fetching mood data from requests..."]
      ++ (if moodFalsy md then ["Mood data not found."] else [])
    { art := { a with moods := md }, exc := none, emulated := false, logs := logs }
  else
    let baseLogs := ["Checking existing mood data...", "Existing mood data not found."]
    match emulate_voting env with
    | (some e, vlogs) =>
      { art := a, exc := some e, emulated := true, logs := baseLogs ++ vlogs }
    | (none, vlogs) =>
      let md := fetch_mood_data_from_requests env.requestsAfterVote
      let logs := baseLogs ++ vlogs ++ ["Fetching mood data from requests..."]
        ++ (if moodFalsy md then ["Mood data not found."] else [])
      { art := { a with moods := md }, exc := none, emulated := true, logs := logs }

/-- Embeds RapplerScraper._fetch_title: wait for the title element and
store its text; a timeout raises TimeoutException. -/
def fetch_title (env : ScrapeEnv) (a : ArticleData) : Except ScraperExc ArticleData :=
  match env.titleRes with
  | some t => .ok { a with title := some t }
  | none => .error .timeoutExc

/-- Embeds RapplerScraper._fetch_datetime. -/
def fetch_datetime (env : ScrapeEnv) (a : ArticleData) : Except ScraperExc ArticleData :=
  match env.datetimeRes with
  | some d => .ok { a with datetime := some d }
  | none => .error .timeoutExc

/-- Embeds RapplerScraper._fetch_content. -/
def fetch_content (env : ScrapeEnv) (a : ArticleData) : Except ScraperExc ArticleData :=
  match env.contentRes with
  | some c => .ok { a with content := some c }
  | none => .error .timeoutExc

/-- State after running the body of the try block of scrape_and_save:
the record as mutated so far, the exception that aborted the block (if
any), whether the mood stage was entered, whether _emulate_voting was
invoked, and the log lines emitted inside the block. -/
structure FetchState where
  art : ArticleData
  exc : Option ScraperExc
  moodAttempted : Bool
  emulated : Bool
  logs : List String
  deriving Repr

/-- The try block of scrape_and_save: run _fetch_title, _fetch_datetime,
_fetch_content and _fetch_moods in order; the first exception aborts the
remaining statements, keeping the fields already stored. -/
def try_fetch_stages (env : ScrapeEnv) (a0 : ArticleData) : FetchState :=
  match fetch_title env a0 with
  | .error e => { art := a0, exc := some e, moodAttempted := false, emulated := false, logs := [] }
  | .ok a1 =>
    match fetch_datetime env a1 with
    | .error e => { art := a1, exc := some e, moodAttempted := false, emulated := false, logs := [] }
    | .ok a2 =>
      match fetch_content env a2 with
      | .error e => { art := a2, exc := some e, moodAttempted := false, emulated := false, logs := [] }
      | .ok a3 =>
        let mr := fetch_moods env a3
        { art := mr.art, exc := mr.exc, moodAttempted := true, emulated := mr.emulated,
          logs := mr.logs }

/-- Configuration of one RapplerScraper instance (the already-parsed
command-line values it receives). -/
structure ScraperConfig where
  output_dir : String
  ignore_cache : Bool
  save_to_firestore : Bool
  deriving Repr

/-- Embeds RapplerScraper._add_to_firestore: insert the record only when
it is complete; otherwise log and drop it. Returns whether a document
was inserted and the log lines. -/
def add_to_firestore (a : ArticleData) : Bool × List String :=
  if a.is_complete then (true, ["Saved data to Firestore."])
  else (false, ["Incomplete data not saved to Firestore."])

/-- Observable trace of one scrape_and_save call: which cache checks
ran, whether the run was skipped, whether driver.get was invoked,
whether driver.quit was invoked, mood-stage flags, the exception
escaping scrape_and_save uncaught (if any), the log lines, the final
record, and the persistence effects. -/
structure ScrapeTrace where
  checkedFirestore : Bool
  checkedLocal : Bool
  skipped : Bool
  navigated : Bool
  driverQuit : Bool
  moodAttempted : Bool
  emulated : Bool
  uncaught : Option ScraperExc
  logs : List String
  art : ArticleData
  savedLocal : Option SaveEffect
  savedFirestore : Bool
  deriving Repr

/-- Embeds RapplerScraper.scrape_and_save, including the cache checks
that return before the try block, the navigation call placed before the
try block (whose failure therefore escapes uncaught, without quitting
the driver or persisting), the try/except/finally, the unconditional
driver quit inside finally, and the choice between Firestore and local
persistence. -/
def scrape_and_save (hashFn : String → String) (cfg : ScraperConfig)
    (env : ScrapeEnv) (url : String) : ScrapeTrace :=
  let a0 := ArticleData.init hashFn url
  if !cfg.ignore_cache && cfg.save_to_firestore && is_article_in_firestore env then
    { checkedFirestore := true, checkedLocal := false, skipped := true,
      navigated := false, driverQuit := false, moodAttempted := false, emulated := false,
      uncaught := none, logs := ["Article already exists in Firestore. Skipping..."],
      art := a0, savedLocal := none, savedFirestore := false }
  else
    let checkedFS := !cfg.ignore_cache && cfg.save_to_firestore
    if !cfg.ignore_cache && is_article_in_local env then
      { checkedFirestore := checkedFS, checkedLocal := true, skipped := true,
        navigated := false, driverQuit := false, moodAttempted := false, emulated := false,
        uncaught := none, logs := ["Article already exists locally. Skipping..."],
        art := a0, savedLocal := none, savedFirestore := false }
    else
      if !env.navOk then
        { checkedFirestore := checkedFS, checkedLocal := !cfg.ignore_cache, skipped := false,
          navigated := true, driverQuit := false, moodAttempted := false, emulated := false,
          uncaught := some .webdriverExc, logs := [], art := a0,
          savedLocal := none, savedFirestore := false }
      else
        let fs := try_fetch_stages env a0
        let errLogs := match fs.exc with
          | some .timeoutExc => ["A timeout occurred during scraping."]
          | some .webdriverExc => ["WebDriver error occurred."]
          | some .otherExc => ["An unexpected error occurred during scraping."]
          | none => []
        if cfg.save_to_firestore then
          let fsres := add_to_firestore fs.art
          { checkedFirestore := checkedFS, checkedLocal := !cfg.ignore_cache, skipped := false,
            navigated := true, driverQuit := true, moodAttempted := fs.moodAttempted,
            emulated := fs.emulated, uncaught := none, logs := fs.logs ++ errLogs ++ fsres.2,
            art := fs.art, savedLocal := none, savedFirestore := fsres.1 }
        else
          let eff := ArticleData.save hashFn fs.art cfg.output_dir
          { checkedFirestore := checkedFS, checkedLocal := !cfg.ignore_cache, skipped := false,
            navigated := true, driverQuit := true, moodAttempted := fs.moodAttempted,
            emulated := fs.emulated, uncaught := none, logs := fs.logs ++ errLogs,
            art := fs.art, savedLocal := some eff, savedFirestore := false }

/-! ## article_url_scraper.py (async URL-discovery variant) -/

/-- A url tag found by the XML parser, with its loc text. -/
structure UrlTag where
  loc : String
  deriving Repr, DecidableEq

/-- Embeds parse_sitemap: when get_response failed (None), return the
empty list; otherwise return the tags the XML parser found in the
response. The tag list stands for the soup.find_all result. -/
def parse_sitemap (response : Option (List UrlTag)) : List UrlTag :=
  match response with
  | some tags => tags
  | none => []

/-- Filesystem effect of write_to_file: whether the output directory was
created, the file written (path and contents), and whether the call
raised IndexError before writing. -/
structure WriteEffect where
  dirsCreated : Bool
  written : Option (String × String)
  indexError : Bool
  deriving Repr, DecidableEq

/-- Embeds write_to_file: create the output directory, then derive the
file name from the MD5 digest of urls at index zero (raising IndexError
when the list is empty, before any file is opened), and write the
newline-joined URLs to output-dir slash digest dot txt. The digest
function is the external hashlib capability. -/
def write_to_file (md5Fn : String → String) (urls : List String)
    (output_dir : String) : WriteEffect :=
  match urls with
  | [] => { dirsCreated := true, written := none, indexError := true }
  | u :: _ =>
    let url_hash := md5Fn u
    let filename := url_hash ++ ".txt"
    let filepath := output_dir ++ "/" ++ filename
    { dirsCreated := true,
      written := some (filepath, String.intercalate "\n" urls),
      indexError := false }

/-- Embeds scrape_article_urls: parse the sitemap response into url
tags, map them to their loc texts, and write them to a file. -/
def scrape_article_urls (md5Fn : String → String) (response : Option (List UrlTag))
    (output_dir : String) : WriteEffect :=
  let url_tags := parse_sitemap response
  let article_urls := url_tags.map UrlTag.loc
  write_to_file md5Fn article_urls output_dir

/-! ## Concrete fixtures used in counterexamples and witnesses -/

/-- A concrete stand-in for the external digest capability in closed
instances (the claims under test do not depend on the digest itself). -/
def idHash : String → String := fun s => "h" ++ s

/-- The main sitemap URL of the repository. -/
def mainSitemapUrl : String := "https://www.rappler.com/sitemap_index.xml"

/-- A concrete page-hrefs capability realizing the scenario of the spec:
the root sitemap lists two post sitemaps, the first with three article
URLs, the second with two article URLs, one shared with the first. -/
def exHrefs : String → List String := fun page =>
  if page == "https://www.rappler.com/sitemap_index.xml" then
    ["https://www.rappler.com/post-sitemap1.xml", "https://www.rappler.com/post-sitemap2.xml"]
  else if page == "https://www.rappler.com/post-sitemap1.xml" then
    ["https://www.rappler.com/a1", "https://www.rappler.com/a2", "https://www.rappler.com/a3"]
  else if page == "https://www.rappler.com/post-sitemap2.xml" then
    ["https://www.rappler.com/a3", "https://www.rappler.com/a4"]
  else []

/-- A captured vote API request carrying a non-empty mood payload. -/
def reqGood : NetRequest :=
  { url := "https://www.rappler.com/api/v1/votes?id=1", response := some [("HAPPY", 10)] }

/-- A captured vote API request whose mood-count payload is empty. -/
def reqEmptyPayload : NetRequest :=
  { url := "https://www.rappler.com/api/v1/votes?id=1", response := some [] }

/-- Local-persistence configuration with the cache enabled. -/
def cfgLocal : ScraperConfig :=
  { output_dir := "article_data", ignore_cache := false, save_to_firestore := false }

/-- Firestore-persistence configuration with the cache enabled. -/
def cfgFirestore : ScraperConfig :=
  { output_dir := "article_data", ignore_cache := false, save_to_firestore := true }

/-- A run in which title and datetime succeed, the content wait times
out, and good mood data would be available on the direct path. -/
def envContentTimeout : ScrapeEnv :=
  { firestoreHas := false, localHasComplete := false, localHasIncomplete := false,
    navOk := true, titleRes := some "T", datetimeRes := some "D", contentRes := none,
    seeMoodsAppears := true, voteClickOk := true,
    requestsAtDirect := [reqGood], requestsAfterVote := [reqGood] }

/-- A run in which all three field fetches succeed, the direct mood path
times out, and the emulate-vote fallback itself times out. -/
def envVoteTimeout : ScrapeEnv :=
  { firestoreHas := false, localHasComplete := false, localHasIncomplete := false,
    navOk := true, titleRes := some "T", datetimeRes := some "D", contentRes := some "C",
    seeMoodsAppears := false, voteClickOk := false,
    requestsAtDirect := [], requestsAfterVote := [] }

/-- A run in which everything succeeds and the direct mood path returns
a response with an empty mood-count payload. -/
def envEmptyMoodPayload : ScrapeEnv :=
  { firestoreHas := false, localHasComplete := false, localHasIncomplete := false,
    navOk := true, titleRes := some "T", datetimeRes := some "D", contentRes := some "C",
    seeMoodsAppears := true, voteClickOk := true,
    requestsAtDirect := [reqEmptyPayload], requestsAfterVote := [reqEmptyPayload] }

/-- A run for a URL whose hash file already exists in the incomplete
partition. -/
def envCachedLocal : ScrapeEnv :=
  { firestoreHas := false, localHasComplete := false, localHasIncomplete := true,
    navOk := true, titleRes := some "T", datetimeRes := some "D", contentRes := some "C",
    seeMoodsAppears := true, voteClickOk := true,
    requestsAtDirect := [reqGood], requestsAfterVote := [reqGood] }

/-- A fully successful run on a cache miss. -/
def envAllOk : ScrapeEnv :=
  { firestoreHas := false, localHasComplete := false, localHasIncomplete := false,
    navOk := true, titleRes := some "T", datetimeRes := some "D", contentRes := some "C",
    seeMoodsAppears := true, voteClickOk := true,
    requestsAtDirect := [reqGood], requestsAfterVote := [reqGood] }

/-- Local-persistence configuration with the ignore-cache override set. -/
def cfgIgnore : ScraperConfig :=
  { output_dir := "article_data", ignore_cache := true, save_to_firestore := false }

/-- A run in which everything succeeds but no vote API response is ever
present among the intercepted requests. -/
def envNoMoodResponse : ScrapeEnv :=
  { firestoreHas := false, localHasComplete := false, localHasIncomplete := false,
    navOk := true, titleRes := some "T", datetimeRes := some "D", contentRes := some "C",
    seeMoodsAppears := true, voteClickOk := true,
    requestsAtDirect := [], requestsAfterVote := [] }

/-- A run in which navigation itself fails with a driver-level error. -/
def envNavFail : ScrapeEnv :=
  { firestoreHas := false, localHasComplete := false, localHasIncomplete := false,
    navOk := false, titleRes := some "T", datetimeRes := some "D", contentRes := some "C",
    seeMoodsAppears := true, voteClickOk := true,
    requestsAtDirect := [reqGood], requestsAfterVote := [reqGood] }

/-! ## Helper lemmas about the sitemap aggregation loop -/

/-- Once the accumulator is within the bound, the loop result stays
within the bound. -/
theorem scrape_sitemap_go_length_le (f : String → List String) (m : Nat) :
    ∀ (ss acc : List String), acc.length ≤ m →
      ((scrape_sitemap_go f (some m) ss acc).1).length ≤ m := by
  intro ss
  induction ss with
  | nil => intro acc h; simpa [scrape_sitemap_go] using h
  | cons s rest ih =>
    intro acc h
    simp only [scrape_sitemap_go]
    by_cases hc : m ≤ (acc ++ f s).length
    · rw [if_pos hc]
      simp [List.length_take]
    · rw [if_neg hc]
      exact ih (acc ++ f s) (Nat.le_of_lt (Nat.lt_of_not_le hc))

/-- The loop result is the concatenation of the contributions of the
fetched sitemaps, truncated to the bound. -/
theorem scrape_sitemap_go_eq_take (f : String → List String) (m : Nat) :
    ∀ (ss acc : List String), acc.length ≤ m →
      (scrape_sitemap_go f (some m) ss acc).1 =
        (acc ++ ((ss.take (scrape_sitemap_go f (some m) ss acc).2).flatMap f)).take m := by
  intro ss
  induction ss with
  | nil =>
    intro acc h
    simp [scrape_sitemap_go, List.take_of_length_le h]
  | cons s rest ih =>
    intro acc h
    simp only [scrape_sitemap_go]
    by_cases hc : m ≤ (acc ++ f s).length
    · rw [if_pos hc]
      simp
    · rw [if_neg hc]
      have hlt : (acc ++ f s).length ≤ m := Nat.le_of_lt (Nat.lt_of_not_le hc)
      have := ih (acc ++ f s) hlt
      simp only [List.take_succ_cons, List.flatMap_cons, ← List.append_assoc]
      exact this

/-- Once the cumulative contribution of some prefix of the sitemaps
reaches the bound, the loop fetches no sitemap beyond that prefix. -/
theorem scrape_sitemap_go_stop (f : String → List String) (m : Nat) :
    ∀ (ss acc : List String) (j : Nat), (acc.length < m ∨ 1 ≤ j) →
      m ≤ (acc ++ ((ss.take j).flatMap f)).length →
      (scrape_sitemap_go f (some m) ss acc).2 ≤ j := by
  intro ss
  induction ss with
  | nil => intro acc j _ _; simp [scrape_sitemap_go]
  | cons s rest ih =>
    intro acc j hdisj hlen
    simp only [scrape_sitemap_go]
    by_cases hc : m ≤ (acc ++ f s).length
    · rw [if_pos hc]
      cases j with
      | zero =>
        simp only [List.take_zero, List.flatMap_nil, List.append_nil] at hlen
        rcases hdisj with hlt | hj
        · omega
        · omega
      | succ j' =>
        show 1 ≤ j' + 1
        omega
    · rw [if_neg hc]
      cases j with
      | zero =>
        simp only [List.take_zero, List.flatMap_nil, List.append_nil] at hlen
        rcases hdisj with hlt | hj
        · omega
        · omega
      | succ j' =>
        have hlen2 : m ≤ ((acc ++ f s) ++ ((rest.take j').flatMap f)).length := by
          simpa [List.take_succ_cons, List.flatMap_cons, List.append_assoc] using hlen
        have h2 := ih (acc ++ f s) j' (Or.inl (Nat.lt_of_not_le hc)) hlen2
        show (scrape_sitemap_go f (some m) rest (acc ++ f s)).2 + 1 ≤ j' + 1
        omega

set_option maxRecDepth 8000

/-! ## Claim theorems -/

/-- C3: for every run of the sitemap crawl with max_url set to N, the
returned sequence has length at most N regardless of the underlying
sitemap contents; the result is the concatenation of the contributions
of the fetched sitemaps truncated to N (so the contribution of the last
fetched sitemap is truncated); and once the cumulative contribution of a
(non-empty) prefix of the child sitemaps reaches N, no sitemap beyond
that prefix is fetched. -/
theorem scrape_sitemap_respects_max_count (pageHrefs : String → List String)
    (main : String) (N : Nat) :
    (scrape_sitemap pageHrefs main (some N)).length ≤ N ∧
    scrape_sitemap pageHrefs main (some N) =
      (((get_post_sitemaps pageHrefs main).take
          (scrape_sitemap_fetches pageHrefs main (some N))).flatMap
        (get_article_urls pageHrefs)).take N ∧
    (∀ j, 0 < j →
      N ≤ (((get_post_sitemaps pageHrefs main).take j).flatMap
            (get_article_urls pageHrefs)).length →
      scrape_sitemap_fetches pageHrefs main (some N) ≤ j) := by
  refine ⟨?_, ?_, ?_⟩
  · exact scrape_sitemap_go_length_le (get_article_urls pageHrefs) N
      (get_post_sitemaps pageHrefs main) [] (Nat.zero_le N)
  · have h := scrape_sitemap_go_eq_take (get_article_urls pageHrefs) N
      (get_post_sitemaps pageHrefs main) [] (Nat.zero_le N)
    simpa [scrape_sitemap, scrape_sitemap_fetches] using h
  · intro j hj hlen
    exact scrape_sitemap_go_stop (get_article_urls pageHrefs) N
      (get_post_sitemaps pageHrefs main) [] j (Or.inr hj) (by simpa using hlen)

/-- C3 witness: the bound and the early stop evaluated on the concrete
two-sitemap scenario with N equal to 4. -/
theorem scrape_sitemap_respects_max_count_witness :
    (scrape_sitemap exHrefs mainSitemapUrl (some 4)).length ≤ 4 ∧
    scrape_sitemap_fetches exHrefs mainSitemapUrl (some 4) ≤ 2 :=
  ⟨(scrape_sitemap_respects_max_count exHrefs mainSitemapUrl 4).1,
   (scrape_sitemap_respects_max_count exHrefs mainSitemapUrl 4).2.2 2
     (by decide) (by decide)⟩

/-- C2 counterexample: in the spec scenario (two post sitemaps of 3 and
2 URLs sharing one URL, max count 4), the aggregate returned by
scrape_sitemap contains the shared URL twice: it is not deduplicated and
has only 3 distinct URLs, not 4. -/
theorem scrape_sitemap_no_dedup_counterexample :
    scrape_sitemap exHrefs mainSitemapUrl (some 4) =
      ["https://www.rappler.com/a1", "https://www.rappler.com/a2",
       "https://www.rappler.com/a3", "https://www.rappler.com/a3"] ∧
    ¬ (scrape_sitemap exHrefs mainSitemapUrl (some 4)).Nodup := by
  exact ⟨by decide, by decide⟩

/-- C2 amended: the final aggregate is not deduplicated; it is the
order-preserving concatenation of the contributions of the fetched
child sitemaps truncated to max count, so a URL occurring in two child
sitemaps can appear twice; in the concrete scenario the result has four
entries, the shared URL appearing twice, hence only three distinct
URLs. -/
theorem scrape_sitemap_keeps_duplicates :
    (∀ (pageHrefs : String → List String) (main : String) (N : Nat), ∃ k,
      scrape_sitemap pageHrefs main (some N) =
        (((get_post_sitemaps pageHrefs main).take k).flatMap
          (get_article_urls pageHrefs)).take N) ∧
    (scrape_sitemap exHrefs mainSitemapUrl (some 4)).length = 4 ∧
    (scrape_sitemap exHrefs mainSitemapUrl (some 4)).count
      "https://www.rappler.com/a3" = 2 ∧
    (scrape_sitemap exHrefs mainSitemapUrl (some 4)).dedup.length = 3 := by
  refine ⟨?_, by decide, by decide, by decide⟩
  intro pageHrefs main N
  refine ⟨scrape_sitemap_fetches pageHrefs main (some N), ?_⟩
  have h := scrape_sitemap_go_eq_take (get_article_urls pageHrefs) N
    (get_post_sitemaps pageHrefs main) [] (Nat.zero_le N)
  simpa [scrape_sitemap, scrape_sitemap_fetches] using h

/-- C1 counterexample: with title and datetime fetched and the content
wait timing out, the mood stage is not attempted at all (even though
mood data was available on the direct path), so extraction does not
continue with the remaining fields as the claim states. -/
theorem field_timeout_counterexample :
    (scrape_and_save idHash cfgLocal envContentTimeout "u").art.title = some "T" ∧
    (scrape_and_save idHash cfgLocal envContentTimeout "u").art.content = none ∧
    (scrape_and_save idHash cfgLocal envContentTimeout "u").moodAttempted = false ∧
    (scrape_and_save idHash cfgLocal envContentTimeout "u").art.moods = none ∧
    fetch_mood_data_from_requests envContentTimeout.requestsAtDirect ≠ none :=
  ⟨by decide, by decide, by decide, by decide, by decide⟩

/-- C1 amended: each of the title, datetime and content fetches runs
under its own wait-timeout, but a timeout on one of them aborts all the
remaining fetch stages of this extraction: fields fetched before the
timeout are retained, the timed-out field and every later field stay
null, the mood stage is not attempted, and the partial record is still
persisted (the driver being quit) rather than the extraction aborting
without a record. Shown here for a content-wait timeout after
successful title and datetime fetches, under local persistence on a
cache miss. -/
theorem field_timeout_aborts_remaining_stages
    (hashFn : String → String) (cfg : ScraperConfig) (env : ScrapeEnv)
    (url t d : String)
    (hfs : cfg.save_to_firestore = false)
    (hl1 : env.localHasComplete = false) (hl2 : env.localHasIncomplete = false)
    (hnav : env.navOk = true)
    (ht : env.titleRes = some t) (hd : env.datetimeRes = some d)
    (hcc : env.contentRes = none) :
    (scrape_and_save hashFn cfg env url).art.title = some t ∧
    (scrape_and_save hashFn cfg env url).art.datetime = some d ∧
    (scrape_and_save hashFn cfg env url).art.content = none ∧
    (scrape_and_save hashFn cfg env url).art.moods = none ∧
    (scrape_and_save hashFn cfg env url).moodAttempted = false ∧
    (scrape_and_save hashFn cfg env url).driverQuit = true ∧
    (scrape_and_save hashFn cfg env url).savedLocal =
      some (ArticleData.save hashFn (scrape_and_save hashFn cfg env url).art
        cfg.output_dir) ∧
    "A timeout occurred during scraping." ∈ (scrape_and_save hashFn cfg env url).logs := by
  simp [scrape_and_save, try_fetch_stages, fetch_title, fetch_datetime, fetch_content,
    is_article_in_local, is_article_in_firestore, hfs, hl1, hl2, hnav, ht, hd, hcc,
    ArticleData.init]

/-- C1 amended witness: the amended statement evaluated on the concrete
content-timeout run. -/
theorem field_timeout_aborts_remaining_stages_witness :
    (scrape_and_save idHash cfgLocal envContentTimeout "u").art.title = some "T" ∧
    (scrape_and_save idHash cfgLocal envContentTimeout "u").art.datetime = some "D" ∧
    (scrape_and_save idHash cfgLocal envContentTimeout "u").art.content = none ∧
    (scrape_and_save idHash cfgLocal envContentTimeout "u").art.moods = none ∧
    (scrape_and_save idHash cfgLocal envContentTimeout "u").moodAttempted = false ∧
    (scrape_and_save idHash cfgLocal envContentTimeout "u").driverQuit = true ∧
    (scrape_and_save idHash cfgLocal envContentTimeout "u").savedLocal =
      some (ArticleData.save idHash (scrape_and_save idHash cfgLocal envContentTimeout "u").art
        cfgLocal.output_dir) ∧
    "A timeout occurred during scraping." ∈
      (scrape_and_save idHash cfgLocal envContentTimeout "u").logs :=
  field_timeout_aborts_remaining_stages idHash cfgLocal envContentTimeout "u" "T" "D"
    rfl rfl rfl rfl rfl rfl rfl

/-- C4: within one _fetch_moods run the emulate-vote fallback is
invoked exactly when the wait for the see-existing-reactions element
times out: when the direct path succeeds the fallback is never invoked,
and the fallback is reachable only after that wait times out. -/
theorem mood_paths_mutually_exclusive (env : ScrapeEnv) (a : ArticleData) :
    (fetch_moods env a).emulated = !env.seeMoodsAppears := by
  cases hS : env.seeMoodsAppears with
  | true => simp [fetch_moods, hS]
  | false =>
    cases hV : env.voteClickOk <;>
      simp [fetch_moods, emulate_voting, hS, hV]

/-- C5 counterexample: an extraction in which the emulate-vote fallback
times out, run with the remote store configured: the timeout propagates
and the extraction ends partial, but the record (title populated) is
persisted nowhere — it is dropped by the Firestore path because it is
incomplete — contradicting the claim that the record is still
persisted on every such extraction. -/
theorem vote_fallback_timeout_not_persisted_counterexample :
    (scrape_and_save idHash cfgFirestore envVoteTimeout "u").emulated = true ∧
    "Failed to emulate a vote." ∈ (scrape_and_save idHash cfgFirestore envVoteTimeout "u").logs ∧
    "A timeout occurred during scraping." ∈
      (scrape_and_save idHash cfgFirestore envVoteTimeout "u").logs ∧
    (scrape_and_save idHash cfgFirestore envVoteTimeout "u").art.title = some "T" ∧
    (scrape_and_save idHash cfgFirestore envVoteTimeout "u").savedFirestore = false ∧
    (scrape_and_save idHash cfgFirestore envVoteTimeout "u").savedLocal = none :=
  ⟨by decide, by decide, by decide, by decide, by decide, by decide⟩

/-- C5 amended: when the emulate-vote fallback itself times out, the
failure propagates out of _fetch_moods as an extraction-level
TimeoutException (caught and logged at the extraction boundary, not
converted into a silent null moods assignment inside _fetch_moods), the
driver is quit, and under local persistence the record retaining all
previously populated fields is still persisted, under the incomplete
partition; under remote persistence the incomplete record is logged and
dropped instead. -/
theorem vote_fallback_timeout_partial_persisted
    (hashFn : String → String) (cfg : ScraperConfig) (env : ScrapeEnv)
    (url t d c : String)
    (hfs : cfg.save_to_firestore = false)
    (hl1 : env.localHasComplete = false) (hl2 : env.localHasIncomplete = false)
    (hnav : env.navOk = true)
    (ht : env.titleRes = some t) (hd : env.datetimeRes = some d)
    (hcc : env.contentRes = some c)
    (hsee : env.seeMoodsAppears = false) (hvote : env.voteClickOk = false) :
    (scrape_and_save hashFn cfg env url).emulated = true ∧
    "Failed to emulate a vote." ∈ (scrape_and_save hashFn cfg env url).logs ∧
    "A timeout occurred during scraping." ∈ (scrape_and_save hashFn cfg env url).logs ∧
    (scrape_and_save hashFn cfg env url).driverQuit = true ∧
    (scrape_and_save hashFn cfg env url).art.title = some t ∧
    (scrape_and_save hashFn cfg env url).art.datetime = some d ∧
    (scrape_and_save hashFn cfg env url).art.content = some c ∧
    (scrape_and_save hashFn cfg env url).art.moods = none ∧
    (scrape_and_save hashFn cfg env url).savedLocal =
      some (ArticleData.save hashFn (scrape_and_save hashFn cfg env url).art
        cfg.output_dir) ∧
    ((scrape_and_save hashFn cfg env url).savedLocal.map SaveEffect.directory) =
      some (cfg.output_dir ++ "/" ++ "incomplete") := by
  simp [scrape_and_save, try_fetch_stages, fetch_title, fetch_datetime, fetch_content,
    fetch_moods, emulate_voting, is_article_in_local, is_article_in_firestore,
    hfs, hl1, hl2, hnav, ht, hd, hcc, hsee, hvote,
    ArticleData.init, ArticleData.save, ArticleData.is_complete, ArticleData.fieldNullFlags]

/-- C5 amended witness: the amended statement evaluated on the concrete
fallback-timeout run under local persistence. -/
theorem vote_fallback_timeout_partial_persisted_witness :
    (scrape_and_save idHash cfgLocal envVoteTimeout "u").emulated = true ∧
    "Failed to emulate a vote." ∈ (scrape_and_save idHash cfgLocal envVoteTimeout "u").logs ∧
    "A timeout occurred during scraping." ∈
      (scrape_and_save idHash cfgLocal envVoteTimeout "u").logs ∧
    (scrape_and_save idHash cfgLocal envVoteTimeout "u").driverQuit = true ∧
    (scrape_and_save idHash cfgLocal envVoteTimeout "u").art.title = some "T" ∧
    (scrape_and_save idHash cfgLocal envVoteTimeout "u").art.datetime = some "D" ∧
    (scrape_and_save idHash cfgLocal envVoteTimeout "u").art.content = some "C" ∧
    (scrape_and_save idHash cfgLocal envVoteTimeout "u").art.moods = none ∧
    (scrape_and_save idHash cfgLocal envVoteTimeout "u").savedLocal =
      some (ArticleData.save idHash (scrape_and_save idHash cfgLocal envVoteTimeout "u").art
        cfgLocal.output_dir) ∧
    ((scrape_and_save idHash cfgLocal envVoteTimeout "u").savedLocal.map SaveEffect.directory) =
      some (cfgLocal.output_dir ++ "/" ++ "incomplete") :=
  vote_fallback_timeout_partial_persisted idHash cfgLocal envVoteTimeout "u" "T" "D" "C"
    rfl rfl rfl rfl rfl rfl rfl rfl rfl

/-- C6: a record is classified complete exactly when all four content
fields (title, datetime, content, moods) are non-null; the url and
url-hash string fields never affect the classification; and save writes
a single JSON file named with the url hash and the json extension,
placed under the complete partition of the output directory exactly when
the record is complete, otherwise under the incomplete partition. -/
theorem record_completeness_classification (hashFn : String → String)
    (dir : String) (a : ArticleData) :
    (a.is_complete = true ↔
      (a.title ≠ none ∧ a.datetime ≠ none ∧ a.content ≠ none ∧ a.moods ≠ none)) ∧
    (∀ u h', (ArticleData.is_complete { a with url := u, url_hash := h' }) = a.is_complete) ∧
    (a.save hashFn dir).filename =
      (a.save hashFn dir).directory ++ "/" ++ hashFn a.url ++ ".json" ∧
    ((a.save hashFn dir).directory = dir ++ "/" ++ "complete" ↔ a.is_complete = true) ∧
    ((a.save hashFn dir).directory = dir ++ "/" ++ "incomplete" ↔ a.is_complete = false) ∧
    (a.url_hash = hashFn a.url →
      (a.save hashFn dir).filename =
        (a.save hashFn dir).directory ++ "/" ++ a.url_hash ++ ".json") := by
  have hne : ¬ (dir ++ "/" ++ "incomplete" = dir ++ "/" ++ "complete") := by
    intro heq
    have hlen := congrArg String.length heq
    simp only [String.length_append] at hlen
    have h1 : ("incomplete".length) = 10 := by decide
    have h2 : ("complete".length) = 8 := by decide
    omega
  refine ⟨?_, ?_, ?_, ?_, ?_, ?_⟩
  · obtain ⟨u, uh, t, dt, c, m⟩ := a
    cases t <;> cases dt <;> cases c <;> cases m <;>
      simp [ArticleData.is_complete, ArticleData.fieldNullFlags]
  · intro u h'
    rfl
  · rfl
  · by_cases hcmp : a.is_complete
    · simp [ArticleData.save, hcmp]
    · simp only [Bool.not_eq_true] at hcmp
      simp [ArticleData.save, hcmp]
      exact fun heq => hne heq
  · by_cases hcmp : a.is_complete
    · simp [ArticleData.save, hcmp]
      exact fun heq => hne heq.symm
    · simp only [Bool.not_eq_true] at hcmp
      simp [ArticleData.save, hcmp]
  · intro h
    rw [h]
    rfl

/-- C6 witness: the partition and file name evaluated on a concrete
incomplete record and on a concrete complete record. -/
theorem record_completeness_classification_witness :
    (((ArticleData.init idHash "u").save idHash "article_data").directory =
      "article_data" ++ "/" ++ "incomplete") ∧
    ((ArticleData.init idHash "u").save idHash "article_data").filename =
      ((ArticleData.init idHash "u").save idHash "article_data").directory ++ "/" ++
        (ArticleData.init idHash "u").url_hash ++ ".json" :=
  ⟨((record_completeness_classification idHash "article_data"
      (ArticleData.init idHash "u")).2.2.2.2.1).mpr (by decide),
   (record_completeness_classification idHash "article_data"
      (ArticleData.init idHash "u")).2.2.2.2.2 rfl⟩

/-- C7: with the cache enabled, a URL whose hash file already exists in
either local partition is skipped without any navigation and without any
write; with the ignore-cache override set, neither the Firestore check
nor the local check is performed and extraction always proceeds to
navigation. -/
theorem cache_skip_and_override (hashFn : String → String) (cfg : ScraperConfig)
    (env : ScrapeEnv) (url : String) :
    (cfg.ignore_cache = false →
      (env.localHasComplete = true ∨ env.localHasIncomplete = true) →
      (scrape_and_save hashFn cfg env url).navigated = false ∧
      (scrape_and_save hashFn cfg env url).savedLocal = none ∧
      (scrape_and_save hashFn cfg env url).savedFirestore = false ∧
      (scrape_and_save hashFn cfg env url).skipped = true) ∧
    (cfg.ignore_cache = true →
      (scrape_and_save hashFn cfg env url).checkedFirestore = false ∧
      (scrape_and_save hashFn cfg env url).checkedLocal = false ∧
      (scrape_and_save hashFn cfg env url).skipped = false ∧
      (scrape_and_save hashFn cfg env url).navigated = true) := by
  constructor
  · intro hic hloc
    have hl : is_article_in_local env = true := by
      rcases hloc with h | h <;> simp [is_article_in_local, h]
    cases hsf : cfg.save_to_firestore <;> cases hffs : env.firestoreHas <;>
      simp [scrape_and_save, is_article_in_firestore, hic, hsf, hffs, hl]
  · intro hic
    cases hn : env.navOk <;> cases hsf : cfg.save_to_firestore <;>
      simp [scrape_and_save, hic, hn, hsf]

/-- C7 witness: both directions evaluated on concrete runs — a cached
URL with the cache enabled, and the same cached URL with the override
set. -/
theorem cache_skip_and_override_witness :
    ((scrape_and_save idHash cfgLocal envCachedLocal "u").navigated = false ∧
     (scrape_and_save idHash cfgLocal envCachedLocal "u").savedLocal = none ∧
     (scrape_and_save idHash cfgLocal envCachedLocal "u").savedFirestore = false ∧
     (scrape_and_save idHash cfgLocal envCachedLocal "u").skipped = true) ∧
    ((scrape_and_save idHash cfgIgnore envCachedLocal "u").checkedFirestore = false ∧
     (scrape_and_save idHash cfgIgnore envCachedLocal "u").checkedLocal = false ∧
     (scrape_and_save idHash cfgIgnore envCachedLocal "u").skipped = false ∧
     (scrape_and_save idHash cfgIgnore envCachedLocal "u").navigated = true) :=
  ⟨(cache_skip_and_override idHash cfgLocal envCachedLocal "u").1 rfl (Or.inr rfl),
   (cache_skip_and_override idHash cfgIgnore envCachedLocal "u").2 rfl⟩

/-- C8: the driver is quit on the success, partial and in-try exception
exit paths (the try/finally), but on a cache-hit skip scrape_and_save
returns before the try/finally and the driver is never quit; likewise a
navigation failure, raised before the try block, escapes with the
driver not quit. This refutes release on every exit path. -/
theorem driver_quit_exit_paths :
    (scrape_and_save idHash cfgLocal envCachedLocal "u").skipped = true ∧
    (scrape_and_save idHash cfgLocal envCachedLocal "u").driverQuit = false ∧
    (scrape_and_save idHash cfgLocal envAllOk "u").driverQuit = true ∧
    (scrape_and_save idHash cfgLocal envVoteTimeout "u").driverQuit = true ∧
    (scrape_and_save idHash cfgLocal envNavFail "u").uncaught = some ScraperExc.webdriverExc ∧
    (scrape_and_save idHash cfgLocal envNavFail "u").driverQuit = false :=
  ⟨by decide, by decide, by decide, by decide, by decide, by decide⟩

/-- C9 counterexample: a run in which the direct path finds a vote API
response whose mood-count payload is empty — so no mood data is yielded
— sets the moods field to the empty mapping, not to null, even though
the mood-data-not-found condition is logged. -/
theorem mood_empty_mapping_counterexample :
    (fetch_moods envEmptyMoodPayload (ArticleData.init idHash "u")).art.moods = some [] ∧
    ¬ (fetch_moods envEmptyMoodPayload (ArticleData.init idHash "u")).art.moods = none ∧
    "Mood data not found." ∈
      (fetch_moods envEmptyMoodPayload (ArticleData.init idHash "u")).logs ∧
    (fetch_moods envEmptyMoodPayload (ArticleData.init idHash "u")).exc = none :=
  ⟨by decide, by decide, by decide, by decide⟩

/-- C9 amended: when neither read path finds a vote API response among
the intercepted requests, the moods field is set to null, the condition
is logged as mood data not found, and this is not treated as an
extraction failure — under local persistence on a cache miss the
extraction still completes and the record is persisted. But when a vote
API response is found whose mood-count payload is empty, the moods field
is set to the empty mapping rather than null (the condition is still
logged and extraction still continues). -/
theorem mood_unavailable_null_logged_persisted :
    (∀ (env : ScrapeEnv) (a : ArticleData),
      env.seeMoodsAppears = true →
      fetch_mood_data_from_requests env.requestsAtDirect = none →
      (fetch_moods env a).art.moods = none ∧
      "Mood data not found." ∈ (fetch_moods env a).logs ∧
      (fetch_moods env a).exc = none) ∧
    (∀ (env : ScrapeEnv) (a : ArticleData),
      env.seeMoodsAppears = false → env.voteClickOk = true →
      fetch_mood_data_from_requests env.requestsAfterVote = none →
      (fetch_moods env a).art.moods = none ∧
      "Mood data not found." ∈ (fetch_moods env a).logs ∧
      (fetch_moods env a).exc = none) ∧
    (∀ (env : ScrapeEnv) (a : ArticleData),
      env.seeMoodsAppears = true →
      fetch_mood_data_from_requests env.requestsAtDirect = some [] →
      (fetch_moods env a).art.moods = some [] ∧
      "Mood data not found." ∈ (fetch_moods env a).logs ∧
      (fetch_moods env a).exc = none) ∧
    (∀ (hashFn : String → String) (cfg : ScraperConfig) (env : ScrapeEnv)
      (url t d c : String),
      cfg.save_to_firestore = false →
      env.localHasComplete = false → env.localHasIncomplete = false →
      env.navOk = true →
      env.titleRes = some t → env.datetimeRes = some d → env.contentRes = some c →
      env.seeMoodsAppears = true →
      fetch_mood_data_from_requests env.requestsAtDirect = none →
      (scrape_and_save hashFn cfg env url).art.moods = none ∧
      "Mood data not found." ∈ (scrape_and_save hashFn cfg env url).logs ∧
      (scrape_and_save hashFn cfg env url).uncaught = none ∧
      (scrape_and_save hashFn cfg env url).driverQuit = true ∧
      (scrape_and_save hashFn cfg env url).savedLocal =
        some (ArticleData.save hashFn (scrape_and_save hashFn cfg env url).art
          cfg.output_dir)) := by
  refine ⟨?_, ?_, ?_, ?_⟩
  · intro env a hsee hmd
    simp [fetch_moods, hsee, hmd, moodFalsy]
  · intro env a hsee hvote hmd
    simp [fetch_moods, emulate_voting, hsee, hvote, hmd, moodFalsy]
  · intro env a hsee hmd
    simp [fetch_moods, hsee, hmd, moodFalsy]
  · intro hashFn cfg env url t d c hfs hl1 hl2 hnav ht hd hcc hsee hmd
    simp [scrape_and_save, try_fetch_stages, fetch_title, fetch_datetime, fetch_content,
      fetch_moods, is_article_in_local, is_article_in_firestore,
      hfs, hl1, hl2, hnav, ht, hd, hcc, hsee, hmd, moodFalsy, ArticleData.init]

/-- C9 amended witness: the null-moods outcome evaluated on the
concrete run with no vote API response present. -/
theorem mood_unavailable_null_logged_persisted_witness :
    (scrape_and_save idHash cfgLocal envNoMoodResponse "u").art.moods = none ∧
    "Mood data not found." ∈ (scrape_and_save idHash cfgLocal envNoMoodResponse "u").logs ∧
    (scrape_and_save idHash cfgLocal envNoMoodResponse "u").uncaught = none ∧
    (scrape_and_save idHash cfgLocal envNoMoodResponse "u").driverQuit = true ∧
    (scrape_and_save idHash cfgLocal envNoMoodResponse "u").savedLocal =
      some (ArticleData.save idHash (scrape_and_save idHash cfgLocal envNoMoodResponse "u").art
        cfgLocal.output_dir) :=
  mood_unavailable_null_logged_persisted.2.2.2 idHash cfgLocal envNoMoodResponse
    "u" "T" "D" "C" rfl rfl rfl rfl rfl rfl rfl rfl rfl

/-- C10: write_to_file derives the output file name from the MD5 digest
of the first URL in the list, so it requires a non-empty URL list: on
the empty list it raises IndexError and writes no file (instead of
writing an empty file); and a child sitemap yielding zero url entries —
in particular a failed fetch, which parse_sitemap turns into the empty
list — makes the write step of scrape_article_urls fail the same way. -/
theorem write_requires_nonempty_urls (md5Fn : String → String) (dir : String) :
    ((write_to_file md5Fn [] dir).indexError = true ∧
     (write_to_file md5Fn [] dir).written = none) ∧
    (∀ (u : String) (rest : List String),
      (write_to_file md5Fn (u :: rest) dir).indexError = false ∧
      (write_to_file md5Fn (u :: rest) dir).written =
        some (dir ++ "/" ++ (md5Fn u ++ ".txt"), String.intercalate "\n" (u :: rest))) ∧
    ((scrape_article_urls md5Fn none dir).indexError = true ∧
     (scrape_article_urls md5Fn none dir).written = none) ∧
    (∀ tags, tags = some ([] : List UrlTag) →
      (scrape_article_urls md5Fn tags dir).indexError = true ∧
      (scrape_article_urls md5Fn tags dir).written = none) := by
  refine ⟨⟨rfl, rfl⟩, ?_, ⟨rfl, rfl⟩, ?_⟩
  · intro u rest
    exact ⟨rfl, rfl⟩
  · intro tags htags
    subst htags
    exact ⟨rfl, rfl⟩

/-- C10 witness: the empty-sitemap case evaluated concretely. -/
theorem write_requires_nonempty_urls_witness :
    (scrape_article_urls idHash (some ([] : List UrlTag)) "article_urls").indexError = true ∧
    (scrape_article_urls idHash (some ([] : List UrlTag)) "article_urls").written = none :=
  (write_requires_nonempty_urls idHash "article_urls").2.2.2 (some []) rfl

end Rappler
